import Mathlib

/-! Shallow embedding of the CRM WhatsApp application (`app/main.py`,
`app/models.py`, `app/database.py`).

Python strings are Lean `String`s; the Python string operations the
handlers use (slicing `s[:n]`, `strip`, `lower`, `startswith`,
substring membership) are embedded as structurally recursive functions
on the underlying character list so that every definition evaluates.
The relational store is a `DB` record of lists of rows; each HTTP
handler becomes a pure function from a `DB` (plus its request data and
the current time, an abstract `Nat` tick standing for
`datetime.now(timezone.utc)`) to a response and a new `DB`.  A database
commit that can fail (NOT NULL constraint violation) is modelled with
`Except`, carrying the store state reached before the failing commit. -/

namespace Crm

/-- Python `s[:n]`: the first `n` characters of `s`. -/
def pyTake (s : String) (n : Nat) : String := String.mk (s.data.take n)

/-- ASCII whitespace stripped by Python `str.strip()`. -/
def isPySpace (c : Char) : Bool :=
  c = ' ' || c = '\t' || c = '\n' || c = '\r' || c = '\x0b' || c = '\x0c'

/-- Python `s.strip()`. -/
def pyStrip (s : String) : String :=
  String.mk (((s.data.dropWhile isPySpace).reverse.dropWhile isPySpace).reverse)

/-- Python `s.lower()` (ASCII case folding suffices here). -/
def pyLower (s : String) : String := String.mk (s.data.map Char.toLower)

/-- Character-list prefix test (Python `startswith` on the tail). -/
def startsWithL : List Char → List Char → Bool
  | [], _ => true
  | _ :: _, [] => false
  | a :: as, b :: bs => a == b && startsWithL as bs

/-- Python `s.startswith(pre)`. -/
def pyStartsWith (s pre : String) : Bool := startsWithL pre.data s.data

/-- Python `needle in hay` on strings (substring membership). -/
def infixOfL (n : List Char) : List Char → Bool
  | [] => n.isEmpty
  | c :: rest => startsWithL n (c :: rest) || infixOfL n rest

/-- Python `o or dflt` for an optional string (`None` and `""` are falsy). -/
def pyOrStr (o : Option String) (dflt : String) : String :=
  match o with
  | some s => if s = "" then dflt else s
  | none => dflt

/-- Python `(s or None)`: an empty string is stored as NULL. -/
def orNone (s : String) : Option String := if s = "" then none else some s

/-! The string constants of `app/models.py`. -/

def DealStatus.NEW : String := "new"

def DealStatus.QUOTE : String := "quote"

def DealStatus.SCHEDULED : String := "scheduled"

def DealStatus.CLOSED : String := "closed"

def ContactType.CLIENT : String := "client"

def ContactType.PROSPECT : String := "prospect"

def ContactType.FOURNISSEUR : String := "fournisseur"

def ContactType.AUTRE : String := "autre"

def MessageDirection.INBOUND : String := "in"

def MessageDirection.OUTBOUND : String := "out"

/-- Row of the `contact` table (`app/models.py`, class `Contact`). -/
structure Contact where
  id : Nat
  type : String := ContactType.CLIENT
  name : String
  phone : String
  email : Option String := none
  company : Option String := none
  address : Option String := none
  tags : Option String := none
  created_at : Nat := 0
deriving Repr, DecidableEq

/-- Row of the `deal` table (`app/models.py`, class `Deal`). -/
structure Deal where
  id : Nat
  title : String
  contact_id : Nat
  status : String := DealStatus.NEW
  amount_estimated : Option Int := none
  last_message_preview : Option String := none
  last_message_channel : Option String := none
  last_message_at : Option Nat := none
  created_at : Nat := 0
deriving Repr, DecidableEq

/-- Row of the `message` table (`app/models.py`, class `Message`). -/
structure Message where
  id : Nat
  deal_id : Nat
  direction : String
  channel : String := "WhatsApp"
  content : String
  created_at : Nat := 0
deriving Repr, DecidableEq

/-- The relational store: the three tables plus autoincrement counters. -/
structure DB where
  contacts : List Contact := []
  deals : List Deal := []
  messages : List Message := []
  next_contact_id : Nat := 1
  next_deal_id : Nat := 1
  next_message_id : Nat := 1
deriving Repr, DecidableEq

/-- A JSON primitive value appearing in a handler response body. -/
inductive JVal where
  | jb : Bool → JVal
  | js : String → JVal
  | jn : Nat → JVal
deriving Repr, DecidableEq

/-- An HTTP response: a flat JSON object with a status code, or a redirect. -/
inductive HResponse where
  | json : Nat → List (String × JVal) → HResponse
  | redirect : Nat → String → HResponse
deriving Repr, DecidableEq

/-- `session.get(Deal, deal_id)`: first row with the given primary key. -/
def getDeal (db : DB) (i : Nat) : Option Deal := db.deals.find? (fun d => d.id == i)

/-- `session.get(Contact, contact_id)`. -/
def getContact (db : DB) (i : Nat) : Option Contact :=
  db.contacts.find? (fun c => c.id == i)

/-- Committing a mutated `Deal` object: every row with its primary key is
replaced by the new value. -/
def setDeal (db : DB) (d : Deal) : DB :=
  { db with deals := db.deals.map (fun x => if x.id = d.id then d else x) }

/-- `select(Contact).where(Contact.phone == p).first()`.  A `None` phone
compiles to `phone IS NULL`, which matches no row of a NOT NULL column. -/
def contactByPhone (db : DB) (phone : Option String) : Option Contact :=
  match phone with
  | none => none
  | some p => db.contacts.find? (fun c => c.phone == p)

/-- Scan for the row with the greatest primary key (`ORDER BY id DESC`,
`first()`). -/
def pickLatest : Option Deal → List Deal → Option Deal
  | acc, [] => acc
  | none, d :: rest => pickLatest (some d) rest
  | some a, d :: rest => pickLatest (some (if a.id ≤ d.id then d else a)) rest

/-- `select(Deal).where(Deal.contact_id == cid).order_by(Deal.id.desc()).first()`. -/
def latestDealFor (db : DB) (cid : Nat) : Option Deal :=
  pickLatest none (db.deals.filter (fun d => d.contact_id == cid))

/-- The status set accepted by `update_deal_status` (`app/main.py:305`). -/
def VALID_DEAL_STATUSES : List String :=
  [DealStatus.NEW, DealStatus.QUOTE, DealStatus.SCHEDULED, DealStatus.CLOSED]

/-- `is_ajax` detection of `app/main.py:316-317`: exact match on the
`X-Requested-With` header, or `application/json` occurring in the
lower-cased `Accept` header. -/
def isAjax (x_requested_with accept : Option String) : Bool :=
  x_requested_with == some "XMLHttpRequest" ||
    infixOfL "application/json".data (pyLower (accept.getD "")).data

/-- `POST /deals/(deal_id)/status` (`app/main.py`, `update_deal_status`).
`nextUrl` is the optional `next` form field. -/
def update_deal_status (db : DB) (deal_id : Nat) (status : String)
    (nextUrl : Option String) (x_requested_with accept : Option String) :
    HResponse × DB :=
  if status ∉ VALID_DEAL_STATUSES then
    (.json 400 [("error", .js "statut invalide")], db)
  else
    match getDeal db deal_id with
    | none => (.json 404 [("error", .js "affaire inconnue")], db)
    | some deal =>
      let deal2 := { deal with status := status }
      let db2 := setDeal db deal2
      if isAjax x_requested_with accept then
        (.json 200 [("ok", .jb true), ("deal_id", .jn deal.id),
          ("new_status", .js status)], db2)
      else
        (.redirect 303 (pyOrStr nextUrl ("/?contact_id=" ++ toString deal.contact_id)), db2)

/-- Outcome of `wa_send_text` (`app/main.py:148-167`): unconfigured API,
HTTP error status, or success.  The handler binds this result and never
uses it. -/
inductive WaSendOutcome where
  | notConfigured
  | httpError : Nat → WaSendOutcome
  | sent : Nat → WaSendOutcome
deriving Repr, DecidableEq

set_option linter.unusedVariables false in
/-- `POST /deals/(deal_id)/send_message` (`app/main.py`,
`send_whatsapp_message`).  `waOutcome` is the awaited result of
`wa_send_text`, which the source assigns to `result` and ignores. -/
def send_whatsapp_message (db : DB) (deal_id : Nat) (rawContent : String)
    (waOutcome : WaSendOutcome) (now : Nat) : HResponse × DB :=
  let content := pyStrip rawContent
  if content = "" then (.json 400 [("error", .js "message vide")], db)
  else
    match getDeal db deal_id with
    | none => (.json 404 [("error", .js "affaire inconnue")], db)
    | some deal =>
      match getContact db deal.contact_id with
      | none => (.json 404 [("error", .js "contact inconnu ou sans numéro")], db)
      | some contact =>
        if contact.phone = "" then
          (.json 404 [("error", .js "contact inconnu ou sans numéro")], db)
        else
          let msg : Message :=
            { id := db.next_message_id, deal_id := deal.id,
              direction := MessageDirection.OUTBOUND, content := content,
              channel := "WhatsApp", created_at := now }
          let deal2 := { deal with
            last_message_preview := some (pyTake content 200),
            last_message_channel := some "WhatsApp",
            last_message_at := some now }
          let db2 :=
            { setDeal db deal2 with
              messages := db.messages ++ [msg],
              next_message_id := db.next_message_id + 1 }
          (.redirect 303 ("/?contact_id=" ++ toString contact.id), db2)

/-- `POST /contacts/new` (`app/main.py`, `contacts_create`). -/
def contacts_create (db : DB) (ctype name phone email company address tags : String)
    (now : Nat) : HResponse × DB :=
  let c : Contact :=
    { id := db.next_contact_id, type := ctype,
      name := pyStrip name, phone := pyStrip phone,
      email := orNone email, company := orNone company,
      address := orNone address, tags := orNone tags, created_at := now }
  let db2 :=
    { db with
      contacts := db.contacts ++ [c],
      next_contact_id := db.next_contact_id + 1 }
  let d : Deal :=
    { id := db2.next_deal_id, title := "Nouvelle affaire",
      contact_id := c.id, status := DealStatus.NEW, created_at := now }
  let db3 :=
    { db2 with
      deals := db2.deals ++ [d],
      next_deal_id := db2.next_deal_id + 1 }
  (.redirect 303 "/contacts", db3)

/-! Inbound webhook (`app/main.py`, `whatsapp_webhook`).  The provider
payload is `entry -> changes -> value.(messages, contacts)`; each field
read with `.get` may be missing, which `Option` records.  The handler
wraps the whole batch in one `try`, so a failing commit inside the loop
aborts the remaining items while keeping earlier committed writes. -/

/-- One provider message: `m.get("from")`, `m.get("type")`, and the
nested `m.get("text", ...).get("body")`. -/
structure WaMessage where
  wa_from : Option String := none
  wa_type : Option String := none
  wa_text_body : Option String := none
deriving Repr, DecidableEq

/-- One element of `value.contacts`: the nested `profile.name`. -/
structure WaContactMeta where
  profile_name : Option String := none
deriving Repr, DecidableEq

/-- One element of `entry[i].changes`: its `value` sub-object. -/
structure WaChange where
  messages : List WaMessage := []
  contacts : List WaContactMeta := []
deriving Repr, DecidableEq

/-- One element of `payload.entry`. -/
structure WaEntry where
  changes : List WaChange := []
deriving Repr, DecidableEq

/-- The webhook POST body. -/
structure WaPayload where
  entry : List WaEntry := []
deriving Repr, DecidableEq

/-- Normalisation of `app/main.py:238-239`: a truthy (non-empty) sender
phone not starting with `+` gets `+` prepended; anything else is kept. -/
def normalizeMsisdn (s : String) : String :=
  if s != "" && !(pyStartsWith s "+") then "+" ++ s else s

/-- `text_body` extraction of `app/main.py:240-242`: empty unless the
message is of type `text` with a present, non-null body. -/
def textBodyOf (m : WaMessage) : String :=
  if m.wa_type == some "text" then m.wa_text_body.getD "" else ""

/-- The `# Upsert Contact` block (`app/main.py:244-255`): look the
contact up by (normalised) phone, else insert one.  Inserting with a
`None` phone violates the NOT NULL constraint and raises from
`session.commit()`. -/
def webhookUpsertContact (db : DB) (profile_name : Option String)
    (from_msisdn : Option String) (now : Nat) :
    Except (String × DB) (Contact × DB) :=
  match contactByPhone db from_msisdn with
  | some c => .ok (c, db)
  | none =>
    match from_msisdn with
    | none => .error ("NOT NULL constraint failed: contact.phone", db)
    | some p =>
      let c : Contact :=
        { id := db.next_contact_id, type := ContactType.CLIENT,
          name := pyOrStr profile_name p, phone := p,
          tags := some "Whatsapp", created_at := now }
      .ok (c, { db with
                contacts := db.contacts ++ [c],
                next_contact_id := db.next_contact_id + 1 })

/-- The `# Upsert Deal` block (`app/main.py:257-269`): latest deal of
the contact, else a fresh `Conversation WhatsApp` deal in status
`new`. -/
def webhookUpsertDeal (db : DB) (contact : Contact) (now : Nat) : Deal × DB :=
  match latestDealFor db contact.id with
  | some d => (d, db)
  | none =>
    let d : Deal :=
      { id := db.next_deal_id, title := "Conversation WhatsApp",
        contact_id := contact.id, status := DealStatus.NEW,
        created_at := now }
    (d, { db with
          deals := db.deals ++ [d],
          next_deal_id := db.next_deal_id + 1 })

/-- Processing of one message of the webhook loop
(`app/main.py:236-288`).  An `IntegrityError` raised by the contact
commit is an `Except.error` carrying the store as committed so far. -/
def processMessage (db : DB) (profile_name : Option String) (m : WaMessage)
    (now : Nat) : Except (String × DB) DB :=
  let from_msisdn : Option String := m.wa_from.map normalizeMsisdn
  let text_body : String := textBodyOf m
  match webhookUpsertContact db profile_name from_msisdn now with
  | .error e => .error e
  | .ok (contact, db1) =>
    let step2 := webhookUpsertDeal db1 contact now
    let deal := step2.1
    let db2 := step2.2
    let db3 :=
      if text_body != "" then
        { db2 with
          messages := db2.messages ++
            [{ id := db2.next_message_id, deal_id := deal.id,
               direction := MessageDirection.INBOUND,
               content := pyTake text_body 4000, channel := "WhatsApp",
               created_at := now }],
          next_message_id := db2.next_message_id + 1 }
      else db2
    let deal2 :=
      { deal with
        last_message_preview := some (pyTake text_body 200),
        last_message_channel := some "WhatsApp",
        last_message_at := some now,
        status := if deal.status == DealStatus.CLOSED then DealStatus.NEW
                  else deal.status }
    .ok (setDeal db3 deal2)

/-- The inner `for m in messages` loop. -/
def processMessages (db : DB) (profile_name : Option String) :
    List WaMessage → Nat → Except (String × DB) DB
  | [], _ => .ok db
  | m :: rest, now =>
    match processMessage db profile_name m now with
    | .error e => .error e
    | .ok db1 => processMessages db1 profile_name rest now

/-- `profile_name` extraction (`app/main.py:232-234`): the nested
`profile.name` of the first element of `value.contacts`, if any. -/
def headProfileName : List WaContactMeta → Option String
  | [] => none
  | cm :: _ => cm.profile_name

/-- One `change`: extract `profile_name` from `value.contacts[0]`, then
run the message loop. -/
def processChange (db : DB) (ch : WaChange) (now : Nat) :
    Except (String × DB) DB :=
  processMessages db (headProfileName ch.contacts) ch.messages now

/-- The `for change in entry.get("changes", [])` loop. -/
def processChanges (db : DB) : List WaChange → Nat → Except (String × DB) DB
  | [], _ => .ok db
  | ch :: rest, now =>
    match processChange db ch now with
    | .error e => .error e
    | .ok db1 => processChanges db1 rest now

/-- The `for entry in entries` loop. -/
def processEntries (db : DB) : List WaEntry → Nat → Except (String × DB) DB
  | [], _ => .ok db
  | e :: rest, now =>
    match processChanges db e.changes now with
    | .error err => .error err
    | .ok db1 => processEntries db1 rest now

/-- `POST /webhook/whatsapp` (`app/main.py`, `whatsapp_webhook`): the
batch under one `try`; any exception yields a 200 response with
`ok: false` and the error text. -/
def whatsapp_webhook (db : DB) (payload : WaPayload) (now : Nat) :
    HResponse × DB :=
  match processEntries db payload.entry now with
  | .ok db1 => (.json 200 [("ok", .jb true)], db1)
  | .error (e, db1) => (.json 200 [("ok", .jb false), ("error", .js e)], db1)

/-- A webhook body carrying exactly one message, the usual provider
shape: one entry, one change. -/
def singleMessagePayload (m : WaMessage) (meta : List WaContactMeta) : WaPayload :=
  { entry := [{ changes := [{ messages := [m], contacts := meta }] }] }

/-- Fixture store used by the concrete witnesses: one prospect contact
(id 1) owning one deal (id 7) in status `new`. -/
def dbW : DB :=
  { contacts := [{ id := 1, type := ContactType.PROSPECT, name := "Mme Dupont",
                   phone := "+966555555501", created_at := 0 }],
    deals := [{ id := 7, title := "Affaire", contact_id := 1,
                status := DealStatus.NEW, created_at := 0 }],
    messages := [], next_contact_id := 2, next_deal_id := 8,
    next_message_id := 1 }

/-- Fixture store with one contact whose only deal is `closed`. -/
def dbC : DB :=
  { contacts := [{ id := 1, name := "Ana", phone := "+111", created_at := 0 }],
    deals := [{ id := 3, title := "Chantier", contact_id := 1,
                status := DealStatus.CLOSED, created_at := 0 }],
    messages := [], next_contact_id := 2, next_deal_id := 4,
    next_message_id := 1 }

/-- Fixture webhook batch: the first message has no `from` field, the
second is a well-formed text message. -/
def payloadC7 : WaPayload :=
  { entry :=
      [{ changes :=
          [{ messages :=
              [{ wa_type := some "text", wa_text_body := some "coucou" },
               { wa_from := some "33612345678", wa_type := some "text",
                 wa_text_body := some "bonjour" }],
             contacts := [] }] }] }

/-! Helper lemmas. -/

lemma find?_map_update (l : List Deal) (i : Nat) (d d' : Deal)
    (hid : d'.id = d.id)
    (hfind : l.find? (fun x => x.id == i) = some d) :
    (l.map (fun x => if x.id = d'.id then d' else x)).find?
      (fun x => x.id == i) = some d' := by
  have hdi : d.id = i := by simpa using List.find?_some hfind
  induction l with
  | nil => simp at hfind
  | cons h t ih =>
    by_cases hh : h.id = i
    · have hb : (h.id == i) = true := by simpa using hh
      have : h = d := by simpa [List.find?, hb] using hfind
      subst this
      have hb' : (d'.id == i) = true := by simp [hid, hdi]
      simp [List.find?, hid, hh, hb']
    · have hb : (h.id == i) = false := by simpa using hh
      have hne : ¬ h.id = d'.id := by
        rw [hid, hdi]; exact hh
      have hfind' : t.find? (fun x => x.id == i) = some d := by
        simpa [List.find?, hb] using hfind
      simp [List.find?, hne, hb, ih hfind']

lemma getDeal_setDeal (db : DB) (i : Nat) (d d' : Deal)
    (hd : getDeal db i = some d) (hid : d'.id = d.id) :
    getDeal (setDeal db d') i = some d' :=
  find?_map_update db.deals i d d' hid hd

lemma mem_setDeal (db : DB) (d' x : Deal) (hx : x ∈ db.deals)
    (hid : x.id = d'.id) : d' ∈ (setDeal db d').deals := by
  refine List.mem_map.mpr ⟨x, hx, ?_⟩
  simp [hid]

lemma pickLatest_mem : ∀ (l : List Deal) (acc : Option Deal) (d : Deal),
    pickLatest acc l = some d → d ∈ l ∨ acc = some d := by
  intro l
  induction l with
  | nil =>
    intro acc d h
    right
    simpa [pickLatest] using h
  | cons a t ih =>
    intro acc d h
    cases acc with
    | none =>
      rcases ih (some a) d (by simpa [pickLatest] using h) with h1 | h1
      · exact Or.inl (List.mem_cons_of_mem a h1)
      · exact Or.inl (by simp [Option.some.injEq] at h1; simp [h1])
    | some b =>
      rcases ih (some (if b.id ≤ a.id then a else b)) d
          (by simpa [pickLatest] using h) with h1 | h1
      · exact Or.inl (List.mem_cons_of_mem a h1)
      · by_cases hc : b.id ≤ a.id
        · simp [hc] at h1
          exact Or.inl (by simp [h1])
        · simp [hc] at h1
          right; simp [h1]

lemma latestDealFor_mem (db : DB) (cid : Nat) (d : Deal)
    (h : latestDealFor db cid = some d) :
    d ∈ db.deals ∧ d.contact_id = cid := by
  rcases pickLatest_mem _ _ _ h with h1 | h1
  · rcases List.mem_filter.mp h1 with ⟨hmem, hp⟩
    exact ⟨hmem, by simpa using hp⟩
  · simp at h1

lemma processMessages_single (db : DB) (pn : Option String) (m : WaMessage)
    (now : Nat) :
    processMessages db pn [m] now = processMessage db pn m now := by
  unfold processMessages
  cases h : processMessage db pn m now with
  | error e => rfl
  | ok db1 => simp [processMessages]

lemma processChanges_single (db : DB) (ch : WaChange) (now : Nat) :
    processChanges db [ch] now = processChange db ch now := by
  unfold processChanges
  cases h : processChange db ch now with
  | error e => rfl
  | ok db1 => simp [processChanges]

lemma processEntries_single (db : DB) (e : WaEntry) (now : Nat) :
    processEntries db [e] now = processChanges db e.changes now := by
  unfold processEntries
  cases h : processChanges db e.changes now with
  | error e1 => rfl
  | ok db1 => simp [processEntries]

lemma whatsapp_webhook_single (db : DB) (m : WaMessage)
    (meta : List WaContactMeta) (now : Nat) :
    whatsapp_webhook db (singleMessagePayload m meta) now =
      (match processMessage db (headProfileName meta) m now with
       | .ok db1 => (.json 200 [("ok", .jb true)], db1)
       | .error (e, db1) =>
         (.json 200 [("ok", .jb false), ("error", .js e)], db1)) := by
  unfold whatsapp_webhook singleMessagePayload
  rw [processEntries_single, processChanges_single]
  have h1 : processChange db { messages := [m], contacts := meta } now =
      processMessage db (headProfileName meta) m now := by
    unfold processChange
    exact processMessages_single db (headProfileName meta) m now
  rw [h1]

lemma contactByPhone_phone (db : DB) (p : String) (c : Contact)
    (h : contactByPhone db (some p) = some c) : c.phone = p := by
  simpa using List.find?_some h


lemma processMessage_core (db db1 : DB) (pn : Option String)
    (mt mb : Option String) (ph : String) (c : Contact) (now : Nat)
    (hup : webhookUpsertContact db pn (some (normalizeMsisdn ph)) now =
      .ok (c, db1))
    (hdeals : db1.deals = db.deals)
    (hmsgs : db1.messages = db.messages)
    (hnm : db1.next_message_id = db.next_message_id)
    (hnd : db1.next_deal_id = db.next_deal_id) :
    ∃ (res : DB) (d : Deal),
      processMessage db pn ⟨some ph, mt, mb⟩ now = .ok res ∧
      res.contacts = db1.contacts ∧
      res.messages = db.messages ++
        (if textBodyOf ⟨some ph, mt, mb⟩ = "" then []
         else [{ id := db.next_message_id, deal_id := d.id,
                 direction := MessageDirection.INBOUND, channel := "WhatsApp",
                 content := pyTake (textBodyOf ⟨some ph, mt, mb⟩) 4000,
                 created_at := now }]) ∧
      d ∈ res.deals ∧ d.contact_id = c.id ∧
      d.last_message_preview = some (pyTake (textBodyOf ⟨some ph, mt, mb⟩) 200) ∧
      d.last_message_channel = some "WhatsApp" ∧
      d.last_message_at = some now ∧
      ((∃ d0, latestDealFor db c.id = some d0 ∧ d.id = d0.id ∧
          d.title = d0.title ∧
          d.status = (if d0.status = DealStatus.CLOSED then DealStatus.NEW
                      else d0.status)) ∨
       (latestDealFor db c.id = none ∧ d.id = db.next_deal_id ∧
        d.status = DealStatus.NEW ∧ d.title = "Conversation WhatsApp")) := by
  have hlat : latestDealFor db1 c.id = latestDealFor db c.id := by
    unfold latestDealFor
    rw [hdeals]
  rcases hld : latestDealFor db c.id with _ | d0
  · -- no existing deal: a fresh one is created
    have hud : webhookUpsertDeal db1 c now =
        ({ id := db1.next_deal_id, title := "Conversation WhatsApp",
           contact_id := c.id, status := DealStatus.NEW, created_at := now },
         { db1 with
           deals := db1.deals ++
             [{ id := db1.next_deal_id, title := "Conversation WhatsApp",
                contact_id := c.id, status := DealStatus.NEW,
                created_at := now }],
           next_deal_id := db1.next_deal_id + 1 }) := by
      unfold webhookUpsertDeal
      rw [hlat, hld]
    by_cases htb : textBodyOf ⟨some ph, mt, mb⟩ = ""
    · have hpm : processMessage db pn ⟨some ph, mt, mb⟩ now =
          .ok (setDeal
            { db1 with
              deals := db1.deals ++
                [{ id := db1.next_deal_id, title := "Conversation WhatsApp",
                   contact_id := c.id, status := DealStatus.NEW,
                   created_at := now }],
              next_deal_id := db1.next_deal_id + 1 }
            { id := db1.next_deal_id, title := "Conversation WhatsApp",
              contact_id := c.id, status := DealStatus.NEW,
              last_message_preview := some (pyTake (textBodyOf ⟨some ph, mt, mb⟩) 200),
              last_message_channel := some "WhatsApp",
              last_message_at := some now, created_at := now }) := by
        simp [processMessage, hup, hud, htb, DealStatus.NEW, DealStatus.CLOSED]
      refine ⟨_, { id := db1.next_deal_id, title := "Conversation WhatsApp",
                   contact_id := c.id, status := DealStatus.NEW,
                   last_message_preview :=
                     some (pyTake (textBodyOf ⟨some ph, mt, mb⟩) 200),
                   last_message_channel := some "WhatsApp",
                   last_message_at := some now, created_at := now },
             hpm, ?_, ?_, ?_, ?_, ?_, ?_, ?_, ?_⟩
      · simp [setDeal]
      · simp [setDeal, htb, hmsgs]
      · refine mem_setDeal _ _
          { id := db1.next_deal_id, title := "Conversation WhatsApp",
            contact_id := c.id, status := DealStatus.NEW, created_at := now }
          ?_ rfl
        simp
      · rfl
      · rfl
      · rfl
      · rfl
      · exact Or.inr ⟨rfl, hnd ▸ rfl, rfl, rfl⟩
    · have hpm : processMessage db pn ⟨some ph, mt, mb⟩ now =
          .ok (setDeal
            { db1 with
              deals := db1.deals ++
                [{ id := db1.next_deal_id, title := "Conversation WhatsApp",
                   contact_id := c.id, status := DealStatus.NEW,
                   created_at := now }],
              next_deal_id := db1.next_deal_id + 1,
              messages := db1.messages ++
                [{ id := db1.next_message_id, deal_id := db1.next_deal_id,
                   direction := MessageDirection.INBOUND, channel := "WhatsApp",
                   content := pyTake (textBodyOf ⟨some ph, mt, mb⟩) 4000,
                   created_at := now }],
              next_message_id := db1.next_message_id + 1 }
            { id := db1.next_deal_id, title := "Conversation WhatsApp",
              contact_id := c.id, status := DealStatus.NEW,
              last_message_preview := some (pyTake (textBodyOf ⟨some ph, mt, mb⟩) 200),
              last_message_channel := some "WhatsApp",
              last_message_at := some now, created_at := now }) := by
        simp [processMessage, hup, hud, htb, DealStatus.NEW, DealStatus.CLOSED]
      refine ⟨_, { id := db1.next_deal_id, title := "Conversation WhatsApp",
                   contact_id := c.id, status := DealStatus.NEW,
                   last_message_preview :=
                     some (pyTake (textBodyOf ⟨some ph, mt, mb⟩) 200),
                   last_message_channel := some "WhatsApp",
                   last_message_at := some now, created_at := now },
             hpm, ?_, ?_, ?_, ?_, ?_, ?_, ?_, ?_⟩
      · simp [setDeal]
      · simp [setDeal, htb, hmsgs, hnm]
      · refine mem_setDeal _ _
          { id := db1.next_deal_id, title := "Conversation WhatsApp",
            contact_id := c.id, status := DealStatus.NEW, created_at := now }
          ?_ rfl
        simp
      · rfl
      · rfl
      · rfl
      · rfl
      · exact Or.inr ⟨rfl, hnd ▸ rfl, rfl, rfl⟩
  · -- latest existing deal found
    have hud : webhookUpsertDeal db1 c now = (d0, db1) := by
      unfold webhookUpsertDeal
      rw [hlat, hld]
    have hmem0 : d0 ∈ db.deals := (latestDealFor_mem db c.id d0 hld).1
    have hcid0 : d0.contact_id = c.id := (latestDealFor_mem db c.id d0 hld).2
    by_cases htb : textBodyOf ⟨some ph, mt, mb⟩ = ""
    · have hpm : processMessage db pn ⟨some ph, mt, mb⟩ now =
          .ok (setDeal db1
            { d0 with
              last_message_preview := some (pyTake (textBodyOf ⟨some ph, mt, mb⟩) 200),
              last_message_channel := some "WhatsApp",
              last_message_at := some now,
              status := if d0.status == DealStatus.CLOSED then DealStatus.NEW
                        else d0.status }) := by
        simp [processMessage, hup, hud, htb]
      refine ⟨_, { d0 with
                   last_message_preview :=
                     some (pyTake (textBodyOf ⟨some ph, mt, mb⟩) 200),
                   last_message_channel := some "WhatsApp",
                   last_message_at := some now,
                   status := if d0.status == DealStatus.CLOSED then DealStatus.NEW
                             else d0.status },
             hpm, ?_, ?_, ?_, ?_, ?_, ?_, ?_, ?_⟩
      · simp [setDeal]
      · simp [setDeal, htb, hmsgs]
      · exact mem_setDeal _ _ d0 (hdeals ▸ hmem0) rfl
      · exact hcid0
      · rfl
      · rfl
      · rfl
      · refine Or.inl ⟨d0, rfl, rfl, rfl, ?_⟩
        by_cases hcl : d0.status = DealStatus.CLOSED <;> simp [hcl]
    · have hpm : processMessage db pn ⟨some ph, mt, mb⟩ now =
          .ok (setDeal
            { db1 with
              messages := db1.messages ++
                [{ id := db1.next_message_id, deal_id := d0.id,
                   direction := MessageDirection.INBOUND, channel := "WhatsApp",
                   content := pyTake (textBodyOf ⟨some ph, mt, mb⟩) 4000,
                   created_at := now }],
              next_message_id := db1.next_message_id + 1 }
            { d0 with
              last_message_preview := some (pyTake (textBodyOf ⟨some ph, mt, mb⟩) 200),
              last_message_channel := some "WhatsApp",
              last_message_at := some now,
              status := if d0.status == DealStatus.CLOSED then DealStatus.NEW
                        else d0.status }) := by
        simp [processMessage, hup, hud, htb]
      refine ⟨_, { d0 with
                   last_message_preview :=
                     some (pyTake (textBodyOf ⟨some ph, mt, mb⟩) 200),
                   last_message_channel := some "WhatsApp",
                   last_message_at := some now,
                   status := if d0.status == DealStatus.CLOSED then DealStatus.NEW
                             else d0.status },
             hpm, ?_, ?_, ?_, ?_, ?_, ?_, ?_, ?_⟩
      · simp [setDeal]
      · simp [setDeal, htb, hmsgs, hnm]
      · exact mem_setDeal _ _ d0 (hdeals ▸ hmem0) rfl
      · exact hcid0
      · rfl
      · rfl
      · rfl
      · refine Or.inl ⟨d0, rfl, rfl, rfl, ?_⟩
        by_cases hcl : d0.status = DealStatus.CLOSED <;> simp [hcl]


/-- Characterisation of one webhook message carrying a sender phone
(`m.get("from")` present): processing always commits, the contact is
matched or created by normalised phone, the latest deal is matched or
created, an inbound Message row is appended exactly when the text body
is non-empty, and the deal summary fields are rewritten. -/
theorem processMessage_spec (db : DB) (pn : Option String) (m : WaMessage)
    (ph : String) (now : Nat) (hfrom : m.wa_from = some ph) :
    ∃ (res : DB) (c : Contact) (d : Deal),
      processMessage db pn m now = .ok res ∧
      c.phone = normalizeMsisdn ph ∧
      ((contactByPhone db (some (normalizeMsisdn ph)) = some c ∧
          res.contacts = db.contacts) ∨
       (contactByPhone db (some (normalizeMsisdn ph)) = none ∧
          res.contacts = db.contacts ++ [c] ∧
          c = { id := db.next_contact_id, type := ContactType.CLIENT,
                name := pyOrStr pn (normalizeMsisdn ph),
                phone := normalizeMsisdn ph, tags := some "Whatsapp",
                created_at := now })) ∧
      res.messages = db.messages ++
        (if textBodyOf m = "" then []
         else [{ id := db.next_message_id, deal_id := d.id,
                 direction := MessageDirection.INBOUND, channel := "WhatsApp",
                 content := pyTake (textBodyOf m) 4000, created_at := now }]) ∧
      d ∈ res.deals ∧ d.contact_id = c.id ∧
      d.last_message_preview = some (pyTake (textBodyOf m) 200) ∧
      d.last_message_channel = some "WhatsApp" ∧
      d.last_message_at = some now ∧
      ((∃ d0, latestDealFor db c.id = some d0 ∧ d.id = d0.id ∧
          d.title = d0.title ∧
          d.status = (if d0.status = DealStatus.CLOSED then DealStatus.NEW
                      else d0.status)) ∨
       (latestDealFor db c.id = none ∧ d.id = db.next_deal_id ∧
        d.status = DealStatus.NEW ∧ d.title = "Conversation WhatsApp")) := by
  rcases m with ⟨mf, mt, mb⟩
  obtain rfl : mf = some ph := hfrom
  rcases hcb : contactByPhone db (some (normalizeMsisdn ph)) with _ | c
  · have hup : webhookUpsertContact db pn (some (normalizeMsisdn ph)) now =
        .ok ({ id := db.next_contact_id, type := ContactType.CLIENT,
               name := pyOrStr pn (normalizeMsisdn ph),
               phone := normalizeMsisdn ph, tags := some "Whatsapp",
               created_at := now },
             { db with
               contacts := db.contacts ++
                 [{ id := db.next_contact_id, type := ContactType.CLIENT,
                    name := pyOrStr pn (normalizeMsisdn ph),
                    phone := normalizeMsisdn ph, tags := some "Whatsapp",
                    created_at := now }],
               next_contact_id := db.next_contact_id + 1 }) := by
      unfold webhookUpsertContact
      rw [hcb]
    obtain ⟨res, d, h1, h2, h3, h4, h5, h6, h7, h8, h9⟩ :=
      processMessage_core db _ pn mt mb ph _ now hup rfl rfl rfl rfl
    exact ⟨res, _, d, h1, rfl, Or.inr ⟨rfl, h2, rfl⟩, h3, h4, h5, h6, h7, h8, h9⟩
  · have hup : webhookUpsertContact db pn (some (normalizeMsisdn ph)) now =
        .ok (c, db) := by
      unfold webhookUpsertContact
      rw [hcb]
    obtain ⟨res, d, h1, h2, h3, h4, h5, h6, h7, h8, h9⟩ :=
      processMessage_core db db pn mt mb ph c now hup rfl rfl rfl rfl
    exact ⟨res, c, d, h1, contactByPhone_phone db _ c hcb,
      Or.inl ⟨rfl, h2⟩, h3, h4, h5, h6, h7, h8, h9⟩

lemma processMessage_ok_of_from (db : DB) (pn : Option String) (m : WaMessage)
    (ph : String) (now : Nat) (hfrom : m.wa_from = some ph) :
    ∃ db1, processMessage db pn m now = .ok db1 := by
  obtain ⟨res, _, _, h1, _⟩ := processMessage_spec db pn m ph now hfrom
  exact ⟨res, h1⟩

lemma processMessage_err_of_from_none (db : DB) (pn : Option String)
    (m : WaMessage) (now : Nat) (hfrom : m.wa_from = none) :
    processMessage db pn m now =
      .error ("NOT NULL constraint failed: contact.phone", db) := by
  rcases m with ⟨mf, mt, mb⟩
  obtain rfl : mf = none := hfrom
  simp [processMessage, webhookUpsertContact, contactByPhone]


/-! Claim theorems. -/

/-- Claim C2: for an existing deal and a requested status inside the
known set, the status update is persisted for every caller (retrieving
the deal afterwards shows the new status), and an AJAX caller
additionally receives a 200 JSON body with `ok = true` and `new_status`
set to the value (the body also carries the deal id). -/
theorem claim_C2_status_update_persists (db : DB) (deal_id : Nat)
    (status : String) (nextUrl xrw accept : Option String) (d : Deal)
    (hs : status ∈ VALID_DEAL_STATUSES)
    (hd : getDeal db deal_id = some d) :
    (getDeal (update_deal_status db deal_id status nextUrl xrw accept).2
        deal_id).map (fun x => x.status) = some status ∧
    (isAjax xrw accept = true →
      (update_deal_status db deal_id status nextUrl xrw accept).1 =
        .json 200 [("ok", .jb true), ("deal_id", .jn d.id),
          ("new_status", .js status)]) := by
  have hset : getDeal (setDeal db { d with status := status }) deal_id =
      some { d with status := status } :=
    getDeal_setDeal db deal_id d _ hd rfl
  constructor
  · by_cases hajax : isAjax xrw accept = true
    · simp [update_deal_status, hs, hd, hajax, hset]
    · simp [update_deal_status, hs, hd, hajax, hset]
  · intro hajax
    simp [update_deal_status, hs, hd, hajax]

/-- Witness for C2: deal 7 of the prospect contact moved to `quote`;
persistence holds and the AJAX caller sees the JSON body. -/
theorem claim_C2_status_update_persists_witness :
    (getDeal (update_deal_status dbW 7 "quote" none (some "XMLHttpRequest")
        none).2 7).map (fun x => x.status) = some "quote" ∧
    (isAjax (some "XMLHttpRequest") none = true →
      (update_deal_status dbW 7 "quote" none (some "XMLHttpRequest") none).1 =
        .json 200 [("ok", .jb true), ("deal_id", .jn 7),
          ("new_status", .js "quote")]) :=
  claim_C2_status_update_persists dbW 7 "quote" none (some "XMLHttpRequest")
    none { id := 7, title := "Affaire", contact_id := 1,
           status := DealStatus.NEW, created_at := 0 }
    (by decide) (by decide)

/-- Claim C3: a status value outside the known set yields a 400 error
with the store untouched; a valid value aimed at a missing deal yields
a 404 error with the store untouched. -/
theorem claim_C3_invalid_or_missing (db : DB) (deal_id : Nat)
    (status : String) (nextUrl xrw accept : Option String) :
    (status ∉ VALID_DEAL_STATUSES →
      update_deal_status db deal_id status nextUrl xrw accept =
        (.json 400 [("error", .js "statut invalide")], db)) ∧
    (status ∈ VALID_DEAL_STATUSES → getDeal db deal_id = none →
      update_deal_status db deal_id status nextUrl xrw accept =
        (.json 404 [("error", .js "affaire inconnue")], db)) := by
  constructor
  · intro h
    simp [update_deal_status, h]
  · intro hs hd
    simp [update_deal_status, hs, hd]

/-- Witness for C3: `not_a_status` is rejected with 400 leaving `dbW`
unchanged, and status `quote` on the missing deal 99 gives 404 leaving
`dbW` unchanged. -/
theorem claim_C3_invalid_or_missing_witness :
    ("not_a_status" ∉ VALID_DEAL_STATUSES ∧
      update_deal_status dbW 7 "not_a_status" none none none =
        (.json 400 [("error", .js "statut invalide")], dbW)) ∧
    ("quote" ∈ VALID_DEAL_STATUSES ∧ getDeal dbW 99 = none ∧
      update_deal_status dbW 99 "quote" none none none =
        (.json 404 [("error", .js "affaire inconnue")], dbW)) :=
  ⟨⟨by decide,
    (claim_C3_invalid_or_missing dbW 7 "not_a_status" none none none).1
      (by decide)⟩,
   ⟨by decide, by decide,
    (claim_C3_invalid_or_missing dbW 99 "quote" none none none).2
      (by decide) (by decide)⟩⟩

/-- Claim C5: the outbound-send handler commits exactly the same local
writes and returns the same response whatever the outcome of the
external WhatsApp API call (success, HTTP error, or unconfigured):
`result` is never consulted. -/
theorem claim_C5_send_ignores_external_outcome (db : DB) (deal_id : Nat)
    (rawContent : String) (r1 r2 : WaSendOutcome) (now : Nat) :
    send_whatsapp_message db deal_id rawContent r1 now =
      send_whatsapp_message db deal_id rawContent r2 now := rfl

/-- Claim C8: the webhook POST handler answers HTTP 200 with a JSON
body for every payload: `ok = true` on success, else `ok = false` plus
the swallowed error text. -/
theorem claim_C8_webhook_always_200 (db : DB) (payload : WaPayload)
    (now : Nat) :
    ∃ body, (whatsapp_webhook db payload now).1 = .json 200 body ∧
      (body = [("ok", .jb true)] ∨
       ∃ e, body = [("ok", .jb false), ("error", .js e)]) := by
  unfold whatsapp_webhook
  cases h : processEntries db payload.entry now with
  | ok db1 => exact ⟨_, rfl, Or.inl rfl⟩
  | error e =>
    cases e with
    | mk e1 db1 => exact ⟨_, rfl, Or.inr ⟨e1, rfl⟩⟩

/-- Claim C6: for every contact-creation input, the UI path appends
exactly one contact row and one deal row; the deal is
`Nouvelle affaire` in status `new` and points at the new contact; each
optional field is stored through `orNone`, which maps the empty string
to NULL. -/
theorem claim_C6_contact_create_default_deal (db : DB)
    (ctype name phone email company address tags : String) (now : Nat) :
    ∃ (c : Contact) (d : Deal),
      (contacts_create db ctype name phone email company address tags
        now).2.contacts = db.contacts ++ [c] ∧
      (contacts_create db ctype name phone email company address tags
        now).2.deals = db.deals ++ [d] ∧
      d.status = DealStatus.NEW ∧ d.contact_id = c.id ∧
      d.title = "Nouvelle affaire" ∧
      c.id = db.next_contact_id ∧ c.type = ctype ∧
      c.name = pyStrip name ∧ c.phone = pyStrip phone ∧
      c.email = orNone email ∧ c.company = orNone company ∧
      c.address = orNone address ∧ c.tags = orNone tags ∧
      orNone "" = none :=
  ⟨_, _, rfl, rfl, rfl, rfl, rfl, rfl, rfl, rfl, rfl, rfl, rfl, rfl, rfl, rfl⟩

/-- Claim C4: an outbound send against an existing deal whose contact
has a phone appends exactly one Message row with direction `out` and
the (stripped) content, and rewrites the parent deal summary: preview
is the first 200 characters of the sent content, channel `WhatsApp`,
and a timestamp at least the call time. -/
theorem claim_C4_outbound_message (db : DB) (deal_id : Nat)
    (rawContent : String) (r : WaSendOutcome) (now : Nat) (d : Deal)
    (c : Contact)
    (hne : pyStrip rawContent ≠ "")
    (hd : getDeal db deal_id = some d)
    (hc : getContact db d.contact_id = some c)
    (hphone : c.phone ≠ "") :
    (send_whatsapp_message db deal_id rawContent r now).2.messages =
      db.messages ++
        [{ id := db.next_message_id, deal_id := d.id,
           direction := MessageDirection.OUTBOUND, channel := "WhatsApp",
           content := pyStrip rawContent, created_at := now }] ∧
    MessageDirection.OUTBOUND = "out" ∧
    getDeal (send_whatsapp_message db deal_id rawContent r now).2 deal_id =
      some { d with
             last_message_preview := some (pyTake (pyStrip rawContent) 200),
             last_message_channel := some "WhatsApp",
             last_message_at := some now } ∧
    (∃ t, now ≤ t ∧
      (getDeal (send_whatsapp_message db deal_id rawContent r now).2
        deal_id).map (fun x => x.last_message_at) = some (some t)) := by
  have hset : getDeal (setDeal db
      { d with
        last_message_preview := some (pyTake (pyStrip rawContent) 200),
        last_message_channel := some "WhatsApp",
        last_message_at := some now }) deal_id =
      some { d with
             last_message_preview := some (pyTake (pyStrip rawContent) 200),
             last_message_channel := some "WhatsApp",
             last_message_at := some now } :=
    getDeal_setDeal db deal_id d _ hd rfl
  refine ⟨?_, rfl, ?_, ⟨now, le_refl now, ?_⟩⟩
  · simp [send_whatsapp_message, hne, hd, hc, hphone]
  · simp [send_whatsapp_message, hne, hd, hc, hphone]
    simp only [getDeal] at hset ⊢
    simpa using hset
  · simp [send_whatsapp_message, hne, hd, hc, hphone]
    simp only [getDeal] at hset ⊢
    exact ⟨_, hset, rfl⟩

/-- Witness for C4: sending `" Bonjour "` on deal 7 of the fixture
store at time 3. -/
theorem claim_C4_outbound_message_witness :
    (send_whatsapp_message dbW 7 " Bonjour " .notConfigured 3).2.messages =
      dbW.messages ++
        [{ id := dbW.next_message_id, deal_id := 7,
           direction := MessageDirection.OUTBOUND, channel := "WhatsApp",
           content := pyStrip " Bonjour ", created_at := 3 }] ∧
    MessageDirection.OUTBOUND = "out" ∧
    getDeal (send_whatsapp_message dbW 7 " Bonjour " .notConfigured 3).2 7 =
      some { id := 7, title := "Affaire", contact_id := 1,
             status := DealStatus.NEW,
             last_message_preview := some (pyTake (pyStrip " Bonjour ") 200),
             last_message_channel := some "WhatsApp",
             last_message_at := some 3, created_at := 0 } ∧
    (∃ t, 3 ≤ t ∧
      (getDeal (send_whatsapp_message dbW 7 " Bonjour " .notConfigured 3).2
        7).map (fun x => x.last_message_at) = some (some t)) :=
  claim_C4_outbound_message dbW 7 " Bonjour " .notConfigured 3
    { id := 7, title := "Affaire", contact_id := 1,
      status := DealStatus.NEW, created_at := 0 }
    { id := 1, type := ContactType.PROSPECT, name := "Mme Dupont",
      phone := "+966555555501", created_at := 0 }
    (by decide) (by decide) (by decide) (by decide)

/-- Claim C10: a webhook message with a sender phone whose type is not
`text` (or whose text body is empty) creates no Message row, yet the
owning deal summary is overwritten: preview becomes the empty string,
channel `WhatsApp`, timestamp `now`, and a `closed` deal is reset to
`new` — so the summary no longer reflects the stored messages. -/
theorem claim_C10_nontext_overwrites_summary (db : DB)
    (meta : List WaContactMeta) (m : WaMessage) (ph : String) (now : Nat)
    (hfrom : m.wa_from = some ph)
    (htb : textBodyOf m = "") :
    ∃ (res : DB) (c : Contact) (d : Deal),
      whatsapp_webhook db (singleMessagePayload m meta) now =
        (.json 200 [("ok", .jb true)], res) ∧
      res.messages = db.messages ∧
      c.phone = normalizeMsisdn ph ∧
      d ∈ res.deals ∧ d.contact_id = c.id ∧
      d.last_message_preview = some "" ∧
      d.last_message_channel = some "WhatsApp" ∧
      d.last_message_at = some now ∧
      ((∃ d0, latestDealFor db c.id = some d0 ∧ d.id = d0.id ∧
          d.status = (if d0.status = DealStatus.CLOSED then DealStatus.NEW
                      else d0.status)) ∨
       (latestDealFor db c.id = none ∧ d.status = DealStatus.NEW)) := by
  obtain ⟨res, c, d, h1, h2, h3, h4, h5, h6, h7, h8, h9, h10⟩ :=
    processMessage_spec db (headProfileName meta) m ph now hfrom
  refine ⟨res, c, d, ?_, ?_, h2, h5, h6, ?_, h8, h9, ?_⟩
  · rw [whatsapp_webhook_single, h1]
  · simpa [htb] using h4
  · rw [htb] at h7
    simpa [pyTake] using h7
  · rcases h10 with ⟨d0, hd0, hid, _, hst⟩ | ⟨hnone, _, hst, _⟩
    · exact Or.inl ⟨d0, hd0, hid, hst⟩
    · exact Or.inr ⟨hnone, hst⟩

/-- Witness for C10: an image message from the known phone `+111`
whose only deal is closed; the deal is reset to `new` with an empty
preview and no Message row. -/
theorem claim_C10_nontext_overwrites_summary_witness :
    ∃ (res : DB) (c : Contact) (d : Deal),
      whatsapp_webhook dbC (singleMessagePayload
        { wa_from := some "+111", wa_type := some "image" } []) 9 =
        (.json 200 [("ok", .jb true)], res) ∧
      res.messages = dbC.messages ∧
      c.phone = normalizeMsisdn "+111" ∧
      d ∈ res.deals ∧ d.contact_id = c.id ∧
      d.last_message_preview = some "" ∧
      d.last_message_channel = some "WhatsApp" ∧
      d.last_message_at = some 9 ∧
      ((∃ d0, latestDealFor dbC c.id = some d0 ∧ d.id = d0.id ∧
          d.status = (if d0.status = DealStatus.CLOSED then DealStatus.NEW
                      else d0.status)) ∨
       (latestDealFor dbC c.id = none ∧ d.status = DealStatus.NEW)) :=
  claim_C10_nontext_overwrites_summary dbC []
    { wa_from := some "+111", wa_type := some "image" } "+111" 9 rfl rfl


/-- Counterexample to C1 as stated: on a text message of 4001
characters the single appended Message does not hold the message text —
the stored content is truncated (`text_body[:4000]`). -/
theorem claim_C1_counterexample :
    ∃ msg : Message,
      (whatsapp_webhook {} (singleMessagePayload
        { wa_from := some "+33612345678", wa_type := some "text",
          wa_text_body := some (String.mk (List.replicate 4001 'a')) } [])
        0).2.messages = [msg] ∧
      msg.direction = MessageDirection.INBOUND ∧
      msg.content ≠ String.mk (List.replicate 4001 'a') := by
  obtain ⟨res, c, d, h1, h2, h3, h4, h5, h6, h7, h8, h9, h10⟩ :=
    processMessage_spec {} none
      { wa_from := some "+33612345678", wa_type := some "text",
        wa_text_body := some (String.mk (List.replicate 4001 'a')) }
      "+33612345678" 0 rfl
  have hne : String.mk (List.replicate 4001 'a') ≠ "" := by decide
  have htb : textBodyOf
      { wa_from := some "+33612345678", wa_type := some "text",
        wa_text_body := some (String.mk (List.replicate 4001 'a')) } =
      String.mk (List.replicate 4001 'a') := rfl
  rw [htb] at h4
  rw [if_neg hne] at h4
  refine ⟨{ id := ({} : DB).next_message_id, deal_id := d.id,
            direction := MessageDirection.INBOUND, channel := "WhatsApp",
            content := pyTake (String.mk (List.replicate 4001 'a')) 4000,
            created_at := 0 }, ?_, rfl, ?_⟩
  · rw [whatsapp_webhook_single]
    simp only [headProfileName]
    rw [h1]
    simpa using h4
  · intro heq
    have h1 : (pyTake (String.mk (List.replicate 4001 'a')) 4000).data.length =
        4000 := by
      show ((List.replicate 4001 'a').take 4000).length = 4000
      rw [List.length_take, List.length_replicate]
      omega
    have h2 : (String.mk (List.replicate 4001 'a')).data.length = 4001 := by
      show (List.replicate 4001 'a').length = 4001
      rw [List.length_replicate]
    have heq2 : pyTake (String.mk (List.replicate 4001 'a')) 4000 =
        String.mk (List.replicate 4001 'a') := heq
    rw [heq2, h2] at h1
    exact absurd h1 (by norm_num)

/-- Claim C1 (amended): an inbound webhook text message with a
non-empty body and a sender phone finds or creates the contact by the
normalised phone, finds the contact's latest deal or creates one in
status `new` (resetting a `closed` deal to `new`), appends exactly one
inbound Message whose content is the text truncated to 4000
characters, and rewrites the deal summary: preview is the text
truncated to 200 characters, channel `WhatsApp`, timestamp the handling
time. -/
theorem claim_C1_amended_inbound_text (db : DB) (meta : List WaContactMeta)
    (ph body : String) (now : Nat) (hb : body ≠ "") :
    ∃ (res : DB) (c : Contact) (d : Deal),
      whatsapp_webhook db (singleMessagePayload
        { wa_from := some ph, wa_type := some "text",
          wa_text_body := some body } meta) now =
        (.json 200 [("ok", .jb true)], res) ∧
      c.phone = normalizeMsisdn ph ∧
      ((contactByPhone db (some (normalizeMsisdn ph)) = some c ∧
          res.contacts = db.contacts) ∨
       (contactByPhone db (some (normalizeMsisdn ph)) = none ∧
          res.contacts = db.contacts ++ [c])) ∧
      res.messages = db.messages ++
        [{ id := db.next_message_id, deal_id := d.id,
           direction := MessageDirection.INBOUND, channel := "WhatsApp",
           content := pyTake body 4000, created_at := now }] ∧
      MessageDirection.INBOUND = "in" ∧
      d ∈ res.deals ∧ d.contact_id = c.id ∧
      d.last_message_preview = some (pyTake body 200) ∧
      d.last_message_channel = some "WhatsApp" ∧
      d.last_message_at = some now ∧
      ((∃ d0, latestDealFor db c.id = some d0 ∧ d.id = d0.id ∧
          d.status = (if d0.status = DealStatus.CLOSED then DealStatus.NEW
                      else d0.status)) ∨
       (latestDealFor db c.id = none ∧ d.id = db.next_deal_id ∧
        d.status = DealStatus.NEW ∧ d.title = "Conversation WhatsApp")) := by
  obtain ⟨res, c, d, h1, h2, h3, h4, h5, h6, h7, h8, h9, h10⟩ :=
    processMessage_spec db (headProfileName meta)
      { wa_from := some ph, wa_type := some "text", wa_text_body := some body }
      ph now rfl
  have htb : textBodyOf
      { wa_from := some ph, wa_type := some "text",
        wa_text_body := some body } = body := rfl
  rw [htb] at h4 h7
  rw [if_neg hb] at h4
  refine ⟨res, c, d, ?_, h2, ?_, h4, rfl, h5, h6, h7, h8, h9, ?_⟩
  · rw [whatsapp_webhook_single, h1]
  · rcases h3 with ⟨hfound, hcts⟩ | ⟨hnone, hcts, _⟩
    · exact Or.inl ⟨hfound, hcts⟩
    · exact Or.inr ⟨hnone, hcts⟩
  · rcases h10 with ⟨d0, hd0, hid, _, hst⟩ | h10
    · exact Or.inl ⟨d0, hd0, hid, hst⟩
    · exact Or.inr h10

/-- Witness for the amended C1: the text `Bonjour` from the unknown
phone `33612345678` into the fixture store. -/
theorem claim_C1_amended_inbound_text_witness :
    ∃ (res : DB) (c : Contact) (d : Deal),
      whatsapp_webhook dbW (singleMessagePayload
        { wa_from := some "33612345678", wa_type := some "text",
          wa_text_body := some "Bonjour" } []) 4 =
        (.json 200 [("ok", .jb true)], res) ∧
      c.phone = normalizeMsisdn "33612345678" ∧
      ((contactByPhone dbW (some (normalizeMsisdn "33612345678")) = some c ∧
          res.contacts = dbW.contacts) ∨
       (contactByPhone dbW (some (normalizeMsisdn "33612345678")) = none ∧
          res.contacts = dbW.contacts ++ [c])) ∧
      res.messages = dbW.messages ++
        [{ id := dbW.next_message_id, deal_id := d.id,
           direction := MessageDirection.INBOUND, channel := "WhatsApp",
           content := pyTake "Bonjour" 4000, created_at := 4 }] ∧
      MessageDirection.INBOUND = "in" ∧
      d ∈ res.deals ∧ d.contact_id = c.id ∧
      d.last_message_preview = some (pyTake "Bonjour" 200) ∧
      d.last_message_channel = some "WhatsApp" ∧
      d.last_message_at = some 4 ∧
      ((∃ d0, latestDealFor dbW c.id = some d0 ∧ d.id = d0.id ∧
          d.status = (if d0.status = DealStatus.CLOSED then DealStatus.NEW
                      else d0.status)) ∨
       (latestDealFor dbW c.id = none ∧ d.id = dbW.next_deal_id ∧
        d.status = DealStatus.NEW ∧ d.title = "Conversation WhatsApp")) :=
  claim_C1_amended_inbound_text dbW [] "33612345678" "Bonjour" 4 (by decide)


/-- Counterexample to C9 as stated: the empty-string sender phone does
not start with `+`, yet no `+` is prepended (Python truthiness guard):
the contact is created with phone `""`. -/
theorem claim_C9_counterexample :
    ((whatsapp_webhook {} (singleMessagePayload
        { wa_from := some "", wa_type := some "text",
          wa_text_body := some "salut" } []) 0).2.contacts.map
      (fun c => c.phone)) = [""] ∧
    pyStartsWith "" "+" = false := by
  constructor
  · decide
  · decide

/-- Claim C9 (amended): a non-empty sender phone not starting with `+`
is prefixed with `+`; an empty or already-prefixed sender phone is used
unchanged; the webhook matches or creates the contact with exactly this
normalised phone. -/
theorem claim_C9_amended_phone_normalization (db : DB)
    (meta : List WaContactMeta) (m : WaMessage) (ph : String) (now : Nat)
    (hfrom : m.wa_from = some ph) :
    (ph ≠ "" → pyStartsWith ph "+" = false →
      normalizeMsisdn ph = "+" ++ ph) ∧
    (pyStartsWith ph "+" = true → normalizeMsisdn ph = ph) ∧
    normalizeMsisdn "" = "" ∧
    ∃ (res : DB) (c : Contact),
      whatsapp_webhook db (singleMessagePayload m meta) now =
        (.json 200 [("ok", .jb true)], res) ∧
      c.phone = normalizeMsisdn ph ∧
      ((contactByPhone db (some (normalizeMsisdn ph)) = some c ∧
          res.contacts = db.contacts) ∨
       (contactByPhone db (some (normalizeMsisdn ph)) = none ∧
          res.contacts = db.contacts ++ [c])) := by
  refine ⟨?_, ?_, rfl, ?_⟩
  · intro hne hsw
    simp [normalizeMsisdn, hne, hsw]
  · intro hsw
    simp [normalizeMsisdn, hsw]
  · obtain ⟨res, c, d, h1, h2, h3, _⟩ :=
      processMessage_spec db (headProfileName meta) m ph now hfrom
    refine ⟨res, c, ?_, h2, ?_⟩
    · rw [whatsapp_webhook_single, h1]
    · rcases h3 with ⟨hfound, hcts⟩ | ⟨hnone, hcts, _⟩
      · exact Or.inl ⟨hfound, hcts⟩
      · exact Or.inr ⟨hnone, hcts⟩

/-- Witness for the amended C9: the bare international number
`966555555501` is normalised to `+966555555501` and matches the
existing fixture contact. -/
theorem claim_C9_amended_phone_normalization_witness :
    ("966555555501" ≠ "" → pyStartsWith "966555555501" "+" = false →
      normalizeMsisdn "966555555501" = "+" ++ "966555555501") ∧
    (pyStartsWith "966555555501" "+" = true →
      normalizeMsisdn "966555555501" = "966555555501") ∧
    normalizeMsisdn "" = "" ∧
    ∃ (res : DB) (c : Contact),
      whatsapp_webhook dbW (singleMessagePayload
        { wa_from := some "966555555501", wa_type := some "text",
          wa_text_body := some "bonjour" } []) 2 =
        (.json 200 [("ok", .jb true)], res) ∧
      c.phone = normalizeMsisdn "966555555501" ∧
      ((contactByPhone dbW (some (normalizeMsisdn "966555555501")) = some c ∧
          res.contacts = dbW.contacts) ∨
       (contactByPhone dbW (some (normalizeMsisdn "966555555501")) = none ∧
          res.contacts = dbW.contacts ++ [c])) :=
  claim_C9_amended_phone_normalization dbW []
    { wa_from := some "966555555501", wa_type := some "text",
      wa_text_body := some "bonjour" } "966555555501" 2 rfl

/-- Counterexample to C7 as stated: a batch whose first message lacks
the `from` field aborts before the second, well-formed message, whose
writes never happen (the store stays empty and the handler reports the
constraint error), although the second message alone would be
processed. -/
theorem claim_C7_counterexample :
    whatsapp_webhook {} payloadC7 0 =
      (.json 200 [("ok", .jb false),
        ("error", .js "NOT NULL constraint failed: contact.phone")], {}) ∧
    (whatsapp_webhook {} (singleMessagePayload
       { wa_from := some "33612345678", wa_type := some "text",
         wa_text_body := some "bonjour" } []) 0).2.messages.length = 1 := by
  constructor
  · decide
  · decide

/-- Claim C7 (amended): a message that merely lacks usable text (wrong
type or missing body) is skipped per-message and the loop continues
with the rest of the batch — any message carrying a sender phone
commits and never aborts; but a message missing its sender phone raises
an IntegrityError that aborts the remaining batch with the store as
committed so far (the handler still answers 200 with `ok = false`). -/
theorem claim_C7_amended_batch_abort (db : DB) (pn : Option String)
    (m : WaMessage) (rest : List WaMessage) (ph : String) (now : Nat) :
    (m.wa_from = some ph →
      ∃ db1, processMessage db pn m now = .ok db1 ∧
        processMessages db pn (m :: rest) now =
          processMessages db1 pn rest now) ∧
    (m.wa_from = none →
      processMessages db pn (m :: rest) now =
        .error ("NOT NULL constraint failed: contact.phone", db)) := by
  constructor
  · intro hfrom
    obtain ⟨db1, h1⟩ := processMessage_ok_of_from db pn m ph now hfrom
    exact ⟨db1, h1, by simp [processMessages, h1]⟩
  · intro hfrom
    simp [processMessages, processMessage_err_of_from_none db pn m now hfrom]

/-- Witness for the amended C7: an image message with a sender phone
lets the loop continue to the next message, while a message with no
sender phone aborts the tail of the batch. -/
theorem claim_C7_amended_batch_abort_witness :
    (∃ db1, processMessage {} none
        { wa_from := some "+111", wa_type := some "image" } 0 = .ok db1 ∧
      processMessages {} none
        [{ wa_from := some "+111", wa_type := some "image" },
         { wa_from := some "+222", wa_type := some "text",
           wa_text_body := some "hey" }] 0 =
        processMessages db1 none
          [{ wa_from := some "+222", wa_type := some "text",
             wa_text_body := some "hey" }] 0) ∧
    processMessages {} none
      [({} : WaMessage),
       { wa_from := some "+222", wa_type := some "text",
         wa_text_body := some "hey" }] 0 =
      .error ("NOT NULL constraint failed: contact.phone", {}) :=
  ⟨(claim_C7_amended_batch_abort {} none
      { wa_from := some "+111", wa_type := some "image" }
      [{ wa_from := some "+222", wa_type := some "text",
         wa_text_body := some "hey" }] "+111" 0).1 rfl,
   (claim_C7_amended_batch_abort {} none ({} : WaMessage)
      [{ wa_from := some "+222", wa_type := some "text",
         wa_text_body := some "hey" }] "+111" 0).2 rfl⟩

end Crm
